import Mathlib

/-!
Shallow embedding of the update-zenodo-action repository
(src/src/zenodo.py, src/src/main.py,
src/.github/actions/zenodo-upload/zenodo_upload.py and
src/.github/zenodo-upload/zenodo_upload.py) for checking the
natural-language specification against the code.

Remote interaction is modelled by an oracle (`Env`) assigning a response
to each HTTP operation the client can issue; each embedded method returns
the list of operations it performed (`Step`) together with its outcome
(`Except PyErr`).
-/

namespace UpdateZenodo

/-- Errors a run can surface.  `http` is `requests.HTTPError` (status and
response body), `transport` any other `requests` failure, `fileNotFound`
a local `FileNotFoundError`, `keyError` a Python `KeyError`, `typeError`
a Python `TypeError`, `readError` a failure opening or parsing the
metadata file.  `alreadyPublished` is the spec's `AlreadyPublishedError`;
no code in src constructs it.  `valueError` is the Python `ValueError`
raised by `ZenodoUploader._parse_citation` on a missing mandatory field,
and `unboundLocal` the `UnboundLocalError` raised when code reads a
local variable that was never assigned. -/
inductive PyErr where
  | http (status : Nat) (body : String)
  | transport (msg : String)
  | fileNotFound (path : String)
  | keyError (key : String)
  | typeError (msg : String)
  | readError (msg : String)
  | valueError (msg : String)
  | unboundLocal (name : String)
  | alreadyPublished
deriving DecidableEq, Repr

/-- One author record of the citation metadata, with the two name fields
the code reads (`given-names`, `family-names`). -/
structure Author where
  given_names : String
  family_names : String
deriving DecidableEq, Repr

/-- The loaded metadata dict (`self.metadata` in `ZenodoAPI`), restricted
to the keys the code reads.  `none` models an absent key; list-valued
keys are `Option` as well so that an absent key is distinguishable from a
present empty list (the code collapses both via `.get(key, default)`).
YAML scalar values are modelled as strings. -/
structure LocalMetadata where
  title : Option String := none
  abstract : Option String := none
  authors : Option (List Author) := none
  license : Option String := none
  keywords : Option (List String) := none
  version : Option String := none
  doi : Option String := none
deriving DecidableEq, Repr

/-- The metadata dict `\x7b\x7d` an un-configured `ZenodoAPI` starts with:
every key absent. -/
def emptyMetadata : LocalMetadata := {}

/-- One entry of the deposition listing used by
`ZenodoAPI._find_existing_deposition`: `dep["conceptrecid"]`,
`dep["id"]`, and the `doi` / `version` keys of `dep.get("metadata")`. -/
structure DepEntry where
  conceptrecid : String
  id : String
  doi : Option String := none
  version : Option String := none
deriving DecidableEq, Repr

/-- Python `str()` applied to an optional string value:
`str(None) = "None"`, otherwise the string itself.  Used for
`str(meta.get("version"))` on each remote entry. -/
def pyStr : Option String → String
  | none => "None"
  | some s => s

/-- `target_version` in `_find_existing_deposition`:
`str(self.metadata.get("version", ""))`. -/
def targetVersion (m : LocalMetadata) : String := m.version.getD ""

/-- The scan loop of `ZenodoAPI._find_existing_deposition`: walk the
listing in order; for each entry first compare its stored `doi` with the
local `doi` (Python `==`, so `None == None` holds), then its stringified
stored `version` with the local target version; return the first entry
matching either test. -/
def findScan (m : LocalMetadata) : List DepEntry → Option (String × String)
  | [] => none
  | d :: rest =>
    if d.doi = m.doi then some (d.conceptrecid, d.id)
    else if pyStr d.version = targetVersion m then some (d.conceptrecid, d.id)
    else findScan m rest

/-- Whether an entry passes either of the two per-entry tests of the scan
loop (doi equality, or stringified version equality). -/
def entryMatches (m : LocalMetadata) (d : DepEntry) : Bool :=
  decide (d.doi = m.doi) || decide (pyStr d.version = targetVersion m)

/-- `ZenodoAPI._find_existing_deposition`: performs the listing `GET`;
any failure of it is caught, logged as a warning, and turned into the
no-match result `None`. -/
def find_existing_deposition (m : LocalMetadata)
    (listResp : Except PyErr (List DepEntry)) : Option (String × String) :=
  match listResp with
  | .error _ => none
  | .ok deps => findScan m deps

/-- Local metadata of the C1 scenario: non-empty doi and version 1.0. -/
def m1 : LocalMetadata :=
  { doi := some "10.5281/zenodo.1000", version := some "1.0" }

/-- First remote entry: matches `m1` on version only. -/
def e0 : DepEntry :=
  { conceptrecid := "100", id := "1",
    doi := some "10.5281/zenodo.9", version := some "1.0" }

/-- Second remote entry: matches `m1` on doi. -/
def e1 : DepEntry :=
  { conceptrecid := "200", id := "2",
    doi := some "10.5281/zenodo.1000", version := some "2.0" }

/-- C1 counterexample: the local doi is non-empty and an entry (`e1`)
whose stored doi equals it exists in the index, yet the scan selects the
earlier entry `e0`, which matches on version only — DOI does not take
priority across the index. -/
theorem C1_counterexample :
    m1.doi = some "10.5281/zenodo.1000" ∧
    ("10.5281/zenodo.1000" : String) ≠ "" ∧
    e1.doi = m1.doi ∧ ¬ e0.doi = m1.doi ∧
    findScan m1 [e0, e1] = some ("100", "1") ∧
    (("100", "1") : String × String) ≠ ("200", "2") := by
  refine ⟨rfl, by decide, rfl, by decide, by decide, by decide⟩

/-- C1 amended: the resolver selects the first entry of the index, in
its given order, that matches on doi or on version (a disjunction tested
entry by entry), rather than giving doi matches priority over version
matches that occur earlier in the index. -/
theorem C1_first_either_match (m : LocalMetadata) (deps : List DepEntry) :
    findScan m deps =
      (deps.find? (entryMatches m)).map (fun d => (d.conceptrecid, d.id)) := by
  induction deps with
  | nil => rfl
  | cons d rest ih =>
    by_cases h1 : d.doi = m.doi
    · simp [findScan, entryMatches, h1, List.find?]
    · by_cases h2 : pyStr d.version = targetVersion m
      · simp [findScan, entryMatches, h1, h2, List.find?]
      · simp [findScan, entryMatches, h1, h2, List.find?, ih]

/-- The metadata payload `_create_new_deposition` builds: fixed
`upload_type`, description from `abstract` (default empty), creators
rendered from the author records, license id (default empty), keywords
(default empty list), version (default "1.0.0"). -/
structure DepositionPayload where
  title : String
  upload_type : String
  description : String
  creators : List String
  license : String
  keywords : List String
  version : String
deriving DecidableEq, Repr

/-- The creator name `_create_new_deposition` renders for an author:
the f-string with `family-names`, a comma and a space, `given-names`. -/
def creatorName (a : Author) : String :=
  a.family_names ++ ", " ++ a.given_names

/-- The payload for a given local metadata, given its (mandatory in the
code: accessed with `[...]`) title value. -/
def newDepositionPayload (m : LocalMetadata) (title : String) : DepositionPayload :=
  { title := title
    upload_type := "software"
    description := m.abstract.getD ""
    creators := (m.authors.getD []).map creatorName
    license := m.license.getD ""
    keywords := m.keywords.getD []
    version := m.version.getD "1.0.0" }

/-- The `deposition_data` metadata payload `ZenodoUploader.update_zenodo`
builds (actions script): citation fields plus the stripped version and
the doi. -/
structure UploaderPayload where
  title : String
  version : String
  upload_type : String
  description : String
  creators : List String
  license : String
  keywords : List String
  doi : String
deriving DecidableEq, Repr

/-- One HTTP operation the client can issue against the deposition API,
recorded in the order performed.  `createDep` is `ZenodoAPI`'s creation
`POST`; `createNewRecord` is the uploader script's creation `POST` with
its own payload shape. -/
inductive Step where
  | listDeps
  | newversion (conceptId : String)
  | createDep (payload : DepositionPayload)
  | createNewRecord (payload : UploaderPayload)
  | listFiles (depId : String)
  | deleteFile (depId fileId : String)
  | uploadFile (depId path : String)
  | putMetadata (depId : String) (body : List (String × String))
  | publish (depId : String)
deriving DecidableEq, Repr

/-- Oracle for the remote service (and the local file system for
uploads): the response each operation would receive.  `listFiles`
already folds the `or []` of `delete_files` (a `None` body becomes the
empty list); `uploadFile` covers both the local `open` (e.g.
`FileNotFoundError`) and the `POST`. -/
structure Env where
  listDepositions : Except PyErr (List DepEntry)
  newversion : String → Except PyErr String
  createDeposition : Except PyErr String
  listFiles : String → Except PyErr (List String)
  deleteFile : String → String → Except PyErr Unit
  uploadFile : String → String → Except PyErr Unit
  putMetadata : String → List (String × String) → Except PyErr Unit
  publishPost : String → Except PyErr Unit

/-- `ZenodoAPI._make_request` over a server assigning a response to each
attempt number: the method performs a single `requests.request` call,
re-raises `HTTPError` and any other failure after logging, and contains
no retry loop.  Returns the number of attempts made and the outcome of
the call. -/
def make_request {α : Type} (server : Nat → Except PyErr α) :
    Nat × Except PyErr α :=
  (1, server 0)

/-- The `time.sleep` delays `_make_request` performs between attempts:
the source imports no time module and contains no sleep call. -/
def make_request_sleeps : List Nat := []

/-- Metadata loading in `ZenodoAPI.__init__`: with no `metadata_file`
the metadata dict stays empty; otherwise the open/`yaml.safe_load`
result is stored, and only an exception of that read/parse is re-raised.
The source of a run is modelled as `none` (no file configured) or the
read/parse outcome of the configured file.  No field validation occurs,
and no HTTP operation is performed (the trace component is the list of
`Step`s issued). -/
def load_metadata (source : Option (Except PyErr LocalMetadata)) :
    List Step × Except PyErr LocalMetadata :=
  match source with
  | none => ([], .ok emptyMetadata)
  | some (.error e) => ([], .error e)
  | some (.ok m) => ([], .ok m)

/-- `ZenodoAPI._create_new_deposition`: builds the payload — reading
`self.metadata["title"]`, which raises `KeyError` when the key is absent,
before any request — then `POST`s it and returns the response id. -/
def create_new_deposition (env : Env) (m : LocalMetadata) :
    List Step × Except PyErr String :=
  match m.title with
  | none => ([], .error (.keyError "title"))
  | some t => ([Step.createDep (newDepositionPayload m t)], env.createDeposition)

/-- Whether an error is an `HTTPError` with status 404: exactly the
condition `except requests.HTTPError` + `e.response.status_code == 404`
that `create_version` recovers from. -/
def isHttp404 : PyErr → Bool
  | .http 404 _ => true
  | _ => false

/-- `ZenodoAPI.create_version`: list depositions (failures swallowed into
no-match by `_find_existing_deposition`); on a match, `POST` newversion
for the concept — recovering from an `HTTPError` 404 by falling back to
`_create_new_deposition`, re-raising anything else; with no match, go
straight to `_create_new_deposition`.  The outer handler only logs and
re-raises. -/
def create_version (env : Env) (m : LocalMetadata) :
    List Step × Except PyErr String :=
  match find_existing_deposition m env.listDepositions with
  | some (conceptId, _depId) =>
    match env.newversion conceptId with
    | .ok newId => ([Step.listDeps, Step.newversion conceptId], .ok newId)
    | .error e =>
      if isHttp404 e then
        let fb := create_new_deposition env m
        (Step.listDeps :: Step.newversion conceptId :: fb.1, fb.2)
      else ([Step.listDeps, Step.newversion conceptId], .error e)
  | none =>
    let fb := create_new_deposition env m
    (Step.listDeps :: fb.1, fb.2)

/-- The deletion loop of `ZenodoAPI.delete_files`: delete each listed
file id in order, stopping at (and re-raising) the first failure. -/
def deleteLoop (env : Env) (depId : String) :
    List String → List Step × Except PyErr Unit
  | [] => ([], .ok ())
  | f :: rest =>
    match env.deleteFile depId f with
    | .error e => ([Step.deleteFile depId f], .error e)
    | .ok _ =>
      let r := deleteLoop env depId rest
      (Step.deleteFile depId f :: r.1, r.2)

/-- `ZenodoAPI.delete_files`: `GET` the file listing (a `None` body
becomes `[]` via `or []`), then delete every listed file; any failure is
re-raised. -/
def delete_files (env : Env) (depId : String) :
    List Step × Except PyErr Unit :=
  match env.listFiles depId with
  | .error e => ([Step.listFiles depId], .error e)
  | .ok fileIds =>
    let r := deleteLoop env depId fileIds
    (Step.listFiles depId :: r.1, r.2)

/-- The upload loop of `ZenodoAPI.upload_files`: upload each path in the
given order, stopping at (and re-raising) the first failure, whether a
local `FileNotFoundError` or a request failure. -/
def uploadLoop (env : Env) (depId : String) :
    List String → List Step × Except PyErr Unit
  | [] => ([], .ok ())
  | p :: rest =>
    match env.uploadFile depId p with
    | .error e => ([Step.uploadFile depId p], .error e)
    | .ok _ =>
      let r := uploadLoop env depId rest
      (Step.uploadFile depId p :: r.1, r.2)

/-- `ZenodoAPI.upload_files` is exactly the upload loop. -/
def upload_files (env : Env) (depId : String) (paths : List String) :
    List Step × Except PyErr Unit :=
  uploadLoop env depId paths

/-- The `new_metadata` dict `ZenodoAPI.update_metadata` sends: the source
assigns it the empty dict and the processing code is elided behind the
comment "(existing metadata processing code)", so it stays empty whatever
the local metadata holds. -/
def new_metadata_body (_m : LocalMetadata) : List (String × String) := []

/-- `ZenodoAPI.update_metadata`: a single `PUT` of the (empty)
`new_metadata` body; no prior read of the remote metadata is performed;
failures are re-raised. -/
def update_metadata (env : Env) (m : LocalMetadata) (depId : String) :
    List Step × Except PyErr Unit :=
  ([Step.putMetadata depId (new_metadata_body m)],
   env.putMetadata depId (new_metadata_body m))

/-- `ZenodoAPI.publish_version`: a single `POST` to the publish action;
no read of the deposition state precedes it; failures are re-raised. -/
def publish_version (env : Env) (depId : String) :
    List Step × Except PyErr Unit :=
  ([Step.publish depId], env.publishPost depId)

/-- `ZenodoAPI.full_upload_flow`: `create_version`, then `delete_files`,
`upload_files`, `update_metadata`, `publish_version` on the resulting
deposition id, each starting only after the previous step returned
successfully; the first failure aborts the remaining steps and is
re-raised by the outer handler. -/
def full_upload_flow (env : Env) (m : LocalMetadata) (paths : List String) :
    List Step × Except PyErr String :=
  match (create_version env m).2 with
  | .error e => ((create_version env m).1, .error e)
  | .ok depId =>
    match (delete_files env depId).2 with
    | .error e => ((create_version env m).1 ++ (delete_files env depId).1, .error e)
    | .ok _ =>
      match (upload_files env depId paths).2 with
      | .error e =>
        ((create_version env m).1 ++ (delete_files env depId).1 ++
          (upload_files env depId paths).1, .error e)
      | .ok _ =>
        match (update_metadata env m depId).2 with
        | .error e =>
          ((create_version env m).1 ++ (delete_files env depId).1 ++
            (upload_files env depId paths).1 ++ (update_metadata env m depId).1,
           .error e)
        | .ok _ =>
          match (publish_version env depId).2 with
          | .error e =>
            ((create_version env m).1 ++ (delete_files env depId).1 ++
              (upload_files env depId paths).1 ++ (update_metadata env m depId).1 ++
              (publish_version env depId).1, .error e)
          | .ok _ =>
            ((create_version env m).1 ++ (delete_files env depId).1 ++
              (upload_files env depId paths).1 ++ (update_metadata env m depId).1 ++
              (publish_version env depId).1, .ok depId)

/-- `main` of src/src/main.py: after reading the environment and
constructing `ZenodoAPI` (which loads the metadata, re-raising load
failures), it calls `api.create_version(concept_id)`; but
`ZenodoAPI.create_version` accepts no positional argument, so Python
raises `TypeError` at that call, before any HTTP request — the later
statements (`update_metadata`, `delete_files`, `upload_files`, the
conditional `publish_version`) are unreachable.  (`sandbox` and
`publish` are the env-var strings; an unset `SANDBOX` or `PUBLISH` would
already fail on `.lower()`.) -/
def main_run (_sandbox _publish : String)
    (loadResult : Except PyErr LocalMetadata) (_env : Env) :
    List Step × Except PyErr Unit :=
  match loadResult with
  | .error e => ([], .error e)
  | .ok _ =>
    ([], .error (.typeError
      "create_version() takes 1 positional argument but 2 were given"))

/-- A remote environment where every operation succeeds. -/
def envOk : Env :=
  { listDepositions := .ok [e0, e1]
    newversion := fun _ => .ok "9"
    createDeposition := .ok "42"
    listFiles := fun _ => .ok ["f1"]
    deleteFile := fun _ _ => .ok ()
    uploadFile := fun _ _ => .ok ()
    putMetadata := fun _ _ => .ok ()
    publishPost := fun _ => .ok () }

/-- Local metadata with a title (so `_create_new_deposition` succeeds),
a non-empty doi matching `e1`, and version 1.0. -/
def m5 : LocalMetadata :=
  { title := some "Lib", doi := some "10.5281/zenodo.1000",
    version := some "1.0" }

/-- Environment whose deposition listing contains only the doi-matching
entry and whose newversion call fails with HTTP 404. -/
def env5 : Env :=
  { envOk with
    listDepositions := .ok [e1]
    newversion := fun _ => .error (.http 404 "stale concept") }

/-- Environment whose deposition listing call fails with a transport
error. -/
def env9 : Env :=
  { envOk with listDepositions := .error (.transport "boom") }

/-- C2: every run of `main` that gets past metadata loading raises
`TypeError` at `api.create_version(concept_id)` — the method takes no
argument — before any HTTP request, so none of the claimed workflow
steps is ever performed by the entrypoint.  (The claimed order is what
`full_upload_flow` implements, but `main` never calls it.) -/
theorem C2_main_typeerror (sandbox publishFlag : String)
    (m : LocalMetadata) (env : Env) :
    main_run sandbox publishFlag (.ok m) env =
      ([], .error (.typeError
        "create_version() takes 1 positional argument but 2 were given")) := rfl

/-- Supporting fact (no claim attached): when every stage succeeds,
the trace of `full_upload_flow` is exactly the `create_version` trace
followed by the `delete_files`, `upload_files`, `update_metadata`,
`publish_version` traces for the resolved deposition id, in that
order — the claimed step order, implemented by `full_upload_flow`. -/
theorem full_upload_flow_order (env : Env) (m : LocalMetadata)
    (paths : List String) (depId : String)
    (h1 : (create_version env m).2 = .ok depId)
    (h2 : (delete_files env depId).2 = .ok ())
    (h3 : (upload_files env depId paths).2 = .ok ())
    (h4 : (update_metadata env m depId).2 = .ok ())
    (h5 : (publish_version env depId).2 = .ok ()) :
    full_upload_flow env m paths =
      ((create_version env m).1 ++ (delete_files env depId).1 ++
        (upload_files env depId paths).1 ++ (update_metadata env m depId).1 ++
        (publish_version env depId).1, .ok depId) := by
  simp only [full_upload_flow, h1, h2, h3, h4, h5]

/-- C3 counterexample: a metadata source that reads and parses but holds
none of the mandatory fields (title, authors, license, version) is
loaded successfully — no `MetadataError` exists and no validation is
performed; no HTTP operation is issued. -/
theorem C3_counterexample :
    load_metadata (some (.ok emptyMetadata)) = ([], .ok emptyMetadata) ∧
    emptyMetadata.title = none ∧ emptyMetadata.authors = none ∧
    emptyMetadata.license = none ∧ emptyMetadata.version = none :=
  ⟨rfl, rfl, rfl, rfl, rfl⟩

/-- A server that answers every attempt with HTTP 500. -/
def server500 : Nat → Except PyErr String :=
  fun _ => .error (.http 500 "server error")

/-- C5: when the resolver matched an existing deposition, an HTTP-404
failure of the newversion call makes `create_version` return the result
of `_create_new_deposition` (the 404 is consumed, never surfaced), while
any non-404 failure of that call is propagated unchanged. -/
theorem C5_notfound_fallback (env : Env) (m : LocalMetadata) (c d : String)
    (hfind : find_existing_deposition m env.listDepositions = some (c, d)) :
    (∀ body, env.newversion c = .error (.http 404 body) →
      create_version env m =
        (Step.listDeps :: Step.newversion c :: (create_new_deposition env m).1,
         (create_new_deposition env m).2)) ∧
    (∀ e, env.newversion c = .error e → isHttp404 e = false →
      create_version env m = ([Step.listDeps, Step.newversion c], .error e)) := by
  constructor
  · intro body hb
    unfold create_version
    rw [hfind]
    dsimp only
    rw [hb]
    simp [isHttp404]
  · intro e he hne
    unfold create_version
    rw [hfind]
    dsimp only
    rw [he]
    simp [hne]

/-- C5 witness: in `env5` the resolver matches `e1` and the newversion
call fails with 404; `create_version` falls back to new-deposition
creation. -/
theorem C5_witness :
    create_version env5 m5 =
      (Step.listDeps :: Step.newversion "200" ::
        (create_new_deposition env5 m5).1,
       (create_new_deposition env5 m5).2) :=
  (C5_notfound_fallback env5 m5 "200" "2" rfl).1 "stale concept" rfl

/-- Environment whose remote rejects the publish action with HTTP 403
(the deposition is already published). -/
def envPub : Env :=
  { envOk with publishPost := fun _ => .error (.http 403 "already published") }

/-- C6 counterexample: against a remote that rejects the publish action
(deposition already published), `publish_version` issues exactly one
operation — the publish `POST` itself, with no state pre-check before
it — and surfaces the raw HTTP error, which is not
`AlreadyPublishedError`. -/
theorem C6_counterexample :
    publish_version envPub "7" =
      ([Step.publish "7"], .error (.http 403 "already published")) ∧
    PyErr.http 403 "already published" ≠ PyErr.alreadyPublished ∧
    [Step.publish "7"].length = 1 :=
  ⟨rfl, by decide, rfl⟩

/-- C6 amended: `publish_version` is unconditional — for every
environment and deposition id it performs exactly the publish `POST`
(no pre-check of remote state, no file or metadata mutation) and returns
that call's outcome; an already-published deposition fails only through
the remote rejection, never as `AlreadyPublishedError`. -/
theorem C6_publish_unconditional (env : Env) (depId : String) :
    publish_version env depId = ([Step.publish depId], env.publishPost depId) :=
  rfl

/-- C7: `update_metadata` sends a single `PUT` whose metadata body is
the empty dict for every local metadata — the processing code is stubbed
out — so no field of the new value is transmitted and no read of the
remote metadata (hence no client-side merge) ever happens. -/
theorem C7_empty_metadata_put (env : Env) (m : LocalMetadata) (depId : String) :
    update_metadata env m depId =
      ([Step.putMetadata depId []], env.putMetadata depId []) ∧
    new_metadata_body m = [] :=
  ⟨rfl, rfl⟩

/-- The author record of the spec's end-to-end scenario. -/
def ada : Author := { given_names := "Ada", family_names := "Lovelace" }

/-- The metadata of the spec's end-to-end scenario. -/
def m8 : LocalMetadata :=
  { title := some "Lib 1.2.0", authors := some [ada],
    license := some "mit", version := some "1.2.0" }

/-- C9 amended: a failure of the deposition-listing call is caught
inside `_find_existing_deposition` and converted into the no-match
result, upon which `create_version` proceeds to create a brand-new
deposition; the listing error itself never reaches the caller. -/
theorem C9_listing_error_swallowed (env : Env) (m : LocalMetadata)
    (f : PyErr) (h : env.listDepositions = .error f) :
    find_existing_deposition m env.listDepositions = none ∧
    create_version env m =
      (Step.listDeps :: (create_new_deposition env m).1,
       (create_new_deposition env m).2) := by
  have h1 : find_existing_deposition m env.listDepositions = none := by
    rw [h]; rfl
  refine ⟨h1, ?_⟩
  unfold create_version
  rw [h1]

/-- C9 witness: with a transport failure on the listing,
`_find_existing_deposition` reports no match and `create_version` runs
the new-deposition path. -/
theorem C9_witness :
    find_existing_deposition m5 env9.listDepositions = none ∧
    create_version env9 m5 =
      (Step.listDeps :: (create_new_deposition env9 m5).1,
       (create_new_deposition env9 m5).2) :=
  C9_listing_error_swallowed env9 m5 (.transport "boom") rfl

/-- C9 counterexample: the listing call fails, yet `create_version`
succeeds with a brand-new deposition ("42") instead of propagating the
failure. -/
theorem C9_counterexample :
    env9.listDepositions = .error (.transport "boom") ∧
    (create_version env9 m5).2 = .ok "42" ∧
    (create_version env9 m5).2 ≠ .error (.transport "boom") := by
  refine ⟨rfl, rfl, ?_⟩
  rw [show (create_version env9 m5).2 = Except.ok "42" from rfl]
  simp

/-- Python `str.strip()` on the rendered name: drop leading and
trailing whitespace (kept fully computable over the char list). -/
def pyStrip (s : String) : String :=
  String.mk
    (((s.data.dropWhile Char.isWhitespace).reverse.dropWhile
        Char.isWhitespace).reverse)

/-- The creator name both `_parse_citation` functions render for an
author at load: the f-string with `given-names`, a space,
`family-names`, stripped. -/
def displayName (a : Author) : String :=
  pyStrip (a.given_names ++ " " ++ a.family_names)

/-- The dict `ZenodoUploader._parse_citation` returns (actions
script): title, description (default empty), creators in display form,
lower-cased license, keywords (default empty), version, doi (default
empty). -/
structure UploaderCitation where
  title : String
  description : String
  creators : List String
  license : String
  keywords : List String
  version : String
  doi : String
deriving DecidableEq, Repr

/-- The dict `PublicReleaseDownloader._parse_citation` returns
(zenodo-upload script): like the actions one but with defaults for
every field — including title and license — and no version key. -/
structure PrdCitation where
  title : String
  description : String
  creators : List String
  license : String
  keywords : List String
  doi : String
deriving DecidableEq, Repr

/-- The success value of `ZenodoUploader._parse_citation`, built after
the validation passed (every `getD` default is then unreachable for the
four validated keys). -/
def uploader_citation_value (c : LocalMetadata) : UploaderCitation :=
  { title := c.title.getD ""
    description := c.abstract.getD ""
    creators := (c.authors.getD []).map displayName
    license := (c.license.getD "").toLower
    keywords := c.keywords.getD []
    version := c.version.getD ""
    doi := c.doi.getD "" }

/-- Whether one of the four required keys (title, authors, license,
version) is absent from the parsed citation. -/
def mandatoryMissing (c : LocalMetadata) : Bool :=
  c.title.isNone || c.authors.isNone || c.license.isNone || c.version.isNone

/-- `ZenodoUploader._parse_citation` (actions script): open and parse
CITATION.cff (a failure is logged and re-raised), check the four
required keys in order — raising `ValueError` naming the first absent
one — then build the citation dict.  No HTTP operation is performed. -/
def uploader_parse_citation (source : Except PyErr LocalMetadata) :
    List Step × Except PyErr UploaderCitation :=
  match source with
  | .error e => ([], .error e)
  | .ok c =>
    if c.title.isNone then
      ([], .error (.valueError "Missing required field title in CITATION.cff"))
    else if c.authors.isNone then
      ([], .error (.valueError "Missing required field authors in CITATION.cff"))
    else if c.license.isNone then
      ([], .error (.valueError "Missing required field license in CITATION.cff"))
    else if c.version.isNone then
      ([], .error (.valueError "Missing required field version in CITATION.cff"))
    else ([], .ok (uploader_citation_value c))

/-- The value `PublicReleaseDownloader._parse_citation` builds: every
field read with a `.get` default, no validation at all. -/
def prd_citation_value (c : LocalMetadata) (zenodoVersion : String) :
    PrdCitation :=
  { title := c.title.getD ("Holidays " ++ zenodoVersion)
    description := c.abstract.getD "Country-specific holiday management library"
    creators := (c.authors.getD []).map displayName
    license := (c.license.getD "mit").toLower
    keywords := c.keywords.getD []
    doi := c.doi.getD "" }

/-- `PublicReleaseDownloader._parse_citation` (zenodo-upload script):
open and parse CITATION.cff (a failure is logged and re-raised), then
build the dict with defaults — it never fails on missing fields. -/
def prd_parse_citation (source : Except PyErr LocalMetadata)
    (zenodoVersion : String) : List Step × Except PyErr PrdCitation :=
  match source with
  | .error e => ([], .error e)
  | .ok c => ([], .ok (prd_citation_value c zenodoVersion))

/-- Whether an `Except` outcome is a success. -/
def isOkE {α : Type} : Except PyErr α → Bool
  | .ok _ => true
  | .error _ => false

/-- Whether an `Except` outcome is a Python `ValueError`. -/
def isValueError {α : Type} : Except PyErr α → Bool
  | .error (.valueError _) => true
  | _ => false

/-- C3 amended: only the actions-script loader validates —
`ZenodoUploader._parse_citation` performs no HTTP operation, fails with
`ValueError` exactly when one of title, authors, license, version is
absent, and succeeds exactly when all four are present (read failures
are re-raised); while `ZenodoAPI.__init__` stores the parsed source
unchecked — loading succeeds there with every mandatory field absent,
and a missing title only surfaces later as a `KeyError` in
`_create_new_deposition` — and `PublicReleaseDownloader._parse_citation`
substitutes defaults instead of failing. -/
theorem C3_mandatory_fields (c : LocalMetadata) (e : PyErr) (env : Env)
    (zv : String) :
    (uploader_parse_citation (.ok c)).1 = [] ∧
    isOkE (uploader_parse_citation (.ok c)).2 = !mandatoryMissing c ∧
    isValueError (uploader_parse_citation (.ok c)).2 = mandatoryMissing c ∧
    uploader_parse_citation (.error e) = ([], .error e) ∧
    (load_metadata (some (.ok c))).1 = [] ∧
    (load_metadata (some (.ok c))).2 = .ok c ∧
    create_new_deposition env emptyMetadata = ([], .error (.keyError "title")) ∧
    isOkE (prd_parse_citation (.ok c) zv).2 = true := by
  refine ⟨?_, ?_, ?_, rfl, rfl, rfl, rfl, rfl⟩ <;>
  · obtain ⟨t, ab, au, l, k, v, d⟩ := c
    cases t <;> cases au <;> cases l <;> cases v <;>
      simp [uploader_parse_citation, mandatoryMissing, isOkE, isValueError]

/-- C8 counterexample: the loaders render the author
given "Ada" / family "Lovelace" as "Ada Lovelace" (the claimed form),
but the src/src client's payload builder renders "Lovelace, Ada" —
family name first, comma-separated — so not every creator name consumed
downstream has the "given family" form. -/
theorem C8_counterexample :
    displayName ada = "Ada Lovelace" ∧
    creatorName ada = "Lovelace, Ada" ∧
    creatorName ada ≠ ada.given_names ++ " " ++ ada.family_names ∧
    (newDepositionPayload m8 "Lib 1.2.0").creators = ["Lovelace, Ada"] := by
  refine ⟨by decide, rfl, by decide, rfl⟩

/-- C8 amended: the two .github loaders normalize author records to
display form "given family" at load (given-names, space, family-names,
stripped), but the src/src path does not — `ZenodoAPI` loads records
unchanged and `_create_new_deposition` renders citation form
"family-names, given-names". -/
theorem C8_display_forms (a : Author) (c : LocalMetadata) (t zv : String) :
    (uploader_citation_value c).creators = (c.authors.getD []).map displayName ∧
    (prd_citation_value c zv).creators = (c.authors.getD []).map displayName ∧
    displayName a = pyStrip (a.given_names ++ " " ++ a.family_names) ∧
    (newDepositionPayload c t).creators = (c.authors.getD []).map creatorName ∧
    creatorName a = a.family_names ++ ", " ++ a.given_names ∧
    (load_metadata (some (.ok c))).2 = .ok c :=
  ⟨rfl, rfl, rfl, rfl, rfl, rfl⟩

/-- The retry loop of `PublicReleaseDownloader._zenodo_operation`
(zenodo-upload script): `for attempt in range(3)` around the request;
every `requests.RequestException` — transport, 4xx and 5xx alike — is
caught; when attempts remain it sleeps `RETRY_DELAY` (5) and retries,
on the last attempt it re-raises.  Arguments: the per-attempt server
response, the delay, the current attempt index, the attempts remaining
(including the current one).  Returns attempts made, sleeps performed,
and the outcome. -/
def retryLoop {α : Type} (server : Nat → Except PyErr α) (delay : Nat) :
    Nat → Nat → Nat × List Nat × Except PyErr α
  | _attempt, 0 => (0, [], .error (.transport "loop exhausted"))
  | attempt, n + 1 =>
    match server attempt with
    | .ok v => (1, [], .ok v)
    | .error e =>
      if n = 0 then (1, [], .error e)
      else
        let r := retryLoop server delay (attempt + 1) n
        (r.1 + 1, delay :: r.2.1, r.2.2)

/-- `PublicReleaseDownloader._zenodo_operation` with the fixed
CONFIG bounds: 3 attempts, 5-second delay. -/
def prd_zenodo_operation {α : Type} (server : Nat → Except PyErr α) :
    Nat × List Nat × Except PyErr α :=
  retryLoop server 5 0 3

/-- The retry loop of `ZenodoUploader._zenodo_operation` (actions
script).  Same shape as `retryLoop`, except its `except` block first
runs `logger.error(f"Response content: ...")`, which reads the local
`response`: when the request itself failed (transport class) before any
earlier attempt bound `response`, that read raises `UnboundLocalError`
and escapes the loop at once; an HTTP-status failure always has
`response` bound by the current attempt.  The `bound` flag tracks
whether an earlier attempt assigned `response`. -/
def actionsRetryLoop {α : Type} (server : Nat → Except PyErr α) (delay : Nat) :
    Bool → Nat → Nat → Nat × List Nat × Except PyErr α
  | _bound, _attempt, 0 => (0, [], .error (.transport "loop exhausted"))
  | bound, attempt, n + 1 =>
    match server attempt with
    | .ok v => (1, [], .ok v)
    | .error (.http s b) =>
      if n = 0 then (1, [], .error (.http s b))
      else
        let r := actionsRetryLoop server delay true (attempt + 1) n
        (r.1 + 1, delay :: r.2.1, r.2.2)
    | .error e =>
      if bound then
        if n = 0 then (1, [], .error e)
        else
          let r := actionsRetryLoop server delay bound (attempt + 1) n
          (r.1 + 1, delay :: r.2.1, r.2.2)
      else (1, [], .error (.unboundLocal "response"))

/-- `ZenodoUploader._zenodo_operation` with the fixed CONFIG bounds:
3 attempts, 5-second delay, `response` initially unbound. -/
def actions_zenodo_operation {α : Type} (server : Nat → Except PyErr α) :
    Nat × List Nat × Except PyErr α :=
  actionsRetryLoop server 5 false 0 3

/-- A server that answers every attempt with HTTP 400. -/
def server400 : Nat → Except PyErr String :=
  fun _ => .error (.http 400 "bad request")

/-- C4 counterexample: a 400 (4xx, not a create_version 404) through the
actions script's `_zenodo_operation` is retried — 3 attempts with two
5-second sleeps — instead of surfaced immediately; and a 5xx through
`ZenodoAPI._make_request` is surfaced after a single attempt instead of
being retried 3 times. -/
theorem C4_counterexample :
    actions_zenodo_operation server400 =
      (3, [5, 5], .error (.http 400 "bad request")) ∧
    (3 : Nat) ≠ 1 ∧
    make_request server500 = (1, .error (.http 500 "server error")) ∧
    (1 : Nat) ≠ 3 :=
  ⟨rfl, by decide, rfl, by decide⟩

/-- C4 amended: the .github scripts' `_zenodo_operation` retries every
failure its `except requests.RequestException` catches — 4xx exactly
like transport and 5xx — up to 3 attempts with a 5-second sleep between
attempts, surfacing the final failure; in the actions variant a
transport-class failure with `response` never yet assigned escapes at
once as `UnboundLocalError` from the logging line instead of being
retried; and every call through `ZenodoAPI._make_request` is attempted
exactly once with no sleep, whatever the failure class. -/
theorem C4_retry_behavior (server : Nat → Except PyErr String)
    (s : Nat) (b msg : String) :
    make_request server = (1, server 0) ∧
    make_request_sleeps = [] ∧
    actions_zenodo_operation (fun _ => (.error (.http s b) : Except PyErr String)) =
      (3, [5, 5], .error (.http s b)) ∧
    actions_zenodo_operation (fun _ => (.error (.transport msg) : Except PyErr String)) =
      (1, [], .error (.unboundLocal "response")) ∧
    prd_zenodo_operation (fun _ => (.error (.transport msg) : Except PyErr String)) =
      (3, [5, 5], .error (.transport msg)) ∧
    prd_zenodo_operation (fun _ => (.error (.http s b) : Except PyErr String)) =
      (3, [5, 5], .error (.http s b)) :=
  ⟨rfl, rfl, rfl, rfl, rfl, rfl⟩

/-- The scan loop of `ZenodoUploader.update_zenodo`: walk the listing
in order; per entry compare its stored `doi` with the citation's doi
string (plain `==`, so an absent remote doi never matches), then its
stored `version` with the stripped local version; break at the first
entry matching either test. -/
def uploaderFind (citDoi version : String) :
    List DepEntry → Option (String × String)
  | [] => none
  | d :: rest =>
    if d.doi = some citDoi then some (d.conceptrecid, d.id)
    else if d.version = some version then some (d.conceptrecid, d.id)
    else uploaderFind citDoi version rest

/-- The `deposition_data` dict built in `ZenodoUploader.update_zenodo`
from the parsed citation and the stripped version. -/
def uploaderPayload (cit : UploaderCitation) (version : String) :
    UploaderPayload :=
  { title := cit.title
    version := version
    upload_type := "software"
    description := cit.description
    creators := cit.creators
    license := cit.license
    keywords := cit.keywords
    doi := cit.doi }

/-- Python truthiness of the token: `not self.zenodo_token` holds when
the environment variable is unset (`None`) or the empty string. -/
def tokenFalsy : Option String → Bool
  | none => true
  | some s => decide (s = "")

/-- The version-resolution block of `ZenodoUploader.update_zenodo`: on
a scan match, `POST` newversion for the concept, falling back to a
creation `POST` when that call surfaces an HTTP 404 and re-raising any
other failure; with no match, the creation `POST` directly.  (Each
`Env` response is the outcome `_zenodo_operation` surfaces after its
retries.) -/
def uploader_resolve (env : Env) (cit : UploaderCitation) (version : String)
    (deps : List DepEntry) : List Step × Except PyErr String :=
  match uploaderFind cit.doi version deps with
  | some (conceptId, _depId) =>
    match env.newversion conceptId with
    | .ok newId => ([Step.newversion conceptId], .ok newId)
    | .error e =>
      if isHttp404 e then
        ([Step.newversion conceptId,
          Step.createNewRecord (uploaderPayload cit version)],
         env.createDeposition)
      else ([Step.newversion conceptId], .error e)
  | none =>
    ([Step.createNewRecord (uploaderPayload cit version)],
     env.createDeposition)

/-- `ZenodoUploader.update_zenodo` (actions script): if the token is
falsy, log a warning and return `None` — no API call, no exception;
otherwise `GET` the deposition listing, resolve a deposition id
(`uploader_resolve`), upload each file in order, and `POST` the publish
action; the outer handler logs and re-raises the first failure. -/
def update_zenodo (token : Option String) (env : Env)
    (cit : UploaderCitation) (version : String) (files : List String) :
    List Step × Except PyErr Unit :=
  if tokenFalsy token then ([], .ok ())
  else
    match env.listDepositions with
    | .error e => ([Step.listDeps], .error e)
    | .ok deps =>
      match uploader_resolve env cit version deps with
      | (t1, .error e) => (Step.listDeps :: t1, .error e)
      | (t1, .ok depId) =>
        match uploadLoop env depId files with
        | (t2, .error e) => (Step.listDeps :: t1 ++ t2, .error e)
        | (t2, .ok _) =>
          match env.publishPost depId with
          | .error e =>
            (Step.listDeps :: t1 ++ t2 ++ [Step.publish depId], .error e)
          | .ok _ =>
            (Step.listDeps :: t1 ++ t2 ++ [Step.publish depId], .ok ())

/-- A parsed citation value for concrete runs. -/
def citEx : UploaderCitation := uploader_citation_value m8

/-- C10: when no archive token is configured (unset or empty — Python
falsy), `update_zenodo` returns immediately: it performs no archive API
operation and succeeds without raising (only a warning is logged),
rather than failing with an authentication error. -/
theorem C10_token_guard (token : Option String) (env : Env)
    (cit : UploaderCitation) (version : String) (files : List String)
    (h : tokenFalsy token = true) :
    update_zenodo token env cit version files = ([], .ok ()) := by
  simp [update_zenodo, h]

/-- C10 witness: with the token unset, a concrete run performs no
operation and succeeds. -/
theorem C10_witness :
    update_zenodo none envOk citEx "1.2.0" ["lib-1.2.0.tar.gz"] =
      ([], .ok ()) :=
  C10_token_guard none envOk citEx "1.2.0" ["lib-1.2.0.tar.gz"] rfl

end UpdateZenodo
